import Mathlib

/-!
Verification of the HUPnP core protocol engine (Herqq UPnP) against its
natural-language specification.

The definitions below are a shallow embedding of the C++ sources:

* `src/hupnp/src/hupnp_core/ssdp/hdiscovery_messages.cpp` — the SSDP message
  classes `HResourceAvailable`, `HResourceUnavailable`, `HResourceUpdate`,
  `HDiscoveryRequest`, `HDiscoveryResponse` with their validating
  constructors, `isValid` predicates and equality operators.
* `src/hupnp/src/hupnp_core/http/hhttp_server_p.cpp` — the per-connection
  request loop `HHttpServer::processRequest` and its method dispatch.
* `hactioninvoke_proxy_p.h` — the action-invocation proxy queue (its
  implementation file is not among the sources; the queue machine is
  modelled from the spec, see `ProxyState`).

Qt value classes are modelled by the part of their interface the embedded
code uses: a `QUrl` through `isValid()`/`isEmpty()`, `HProductTokens`
through `isValid()` and `upnpToken().minorVersion()`, an `HEndpoint` as an
opaque value.  A `tag` field keeps distinct values distinguishable so that
the structural equality of the model mirrors `operator==` of the source.
`qint32` values are modelled as `Int` (the code only compares and copies
them, no arithmetic can overflow); the `quint32 cacheControlMaxAge`
parameter is a `Nat`.
-/

namespace HUpnp

/-- `HDiscoveryType` as used by the SSDP message constructors: the only
queries made are `type() == HDiscoveryType::Undefined` and `operator==`.
A defined discovery type is abstracted by a tag. -/
inductive HDiscoveryType where
  | undefined
  | defined (tag : Nat)
  deriving DecidableEq, Repr, BEq

/-- `QUrl` as used by the constructors: `isValid()`, `isEmpty()` and
`operator==`.  The default-constructed `QUrl()` is empty and invalid. -/
structure QUrl where
  valid : Bool
  empty : Bool
  tag : Nat
  deriving DecidableEq, Repr, BEq

def QUrl.default : QUrl := { valid := false, empty := true, tag := 0 }

/-- `HProductTokens` as used by the constructors: `isValid()` (only logged,
never acted on) and `upnpToken().minorVersion()`.  A default-constructed
token set is invalid and its UPnP token has no version (`-1`). -/
structure HProductTokens where
  valid : Bool
  upnpMinor : Int
  tag : Nat
  deriving DecidableEq, Repr, BEq

def HProductTokens.default : HProductTokens :=
  { valid := false, upnpMinor := -1, tag := 0 }

/-- `HEndpoint` (IPv4 address + port), opaque to the embedded code. -/
structure HEndpoint where
  tag : Nat
  deriving DecidableEq, Repr, BEq

def HEndpoint.default : HEndpoint := { tag := 0 }

/-- The cache-control max-age clamp at the top of the `HResourceAvailable`
and `HDiscoveryResponse` constructors (hdiscovery_messages.cpp:103-110 and
676-683): values below 5 become 5, values above `60*60*24` become
`60*60*24`. -/
def clampCC (x : Nat) : Nat :=
  if x < 5 then 5
  else if 60 * 60 * 24 < x then 60 * 60 * 24
  else x

/-! ### HResourceAvailable (hdiscovery_messages.cpp:56-233) -/

/-- The fields of `HResourceAvailablePrivate`. -/
structure HResourceAvailable where
  m_serverTokens : HProductTokens
  m_usn : HDiscoveryType
  m_location : QUrl
  m_cacheControlMaxAge : Int
  m_bootId : Int
  m_configId : Int
  m_searchPort : Int
  deriving DecidableEq, Repr, BEq

/-- `HResourceAvailable()` — the default constructor
(`HResourceAvailablePrivate::HResourceAvailablePrivate`). -/
def HResourceAvailable.default : HResourceAvailable :=
  { m_serverTokens := HProductTokens.default, m_usn := .undefined,
    m_location := QUrl.default, m_cacheControlMaxAge := 0,
    m_bootId := 0, m_configId := 0, m_searchPort := 0 }

/-- The validating constructor `HResourceAvailable::HResourceAvailable`
(hdiscovery_messages.cpp:95-155).  Every early `return` in the source
leaves the freshly allocated private part untouched, i.e. yields the
default object.  In the source the bootId/configId test is nested inside
`if (serverTokens.upnpToken().minorVersion() > 0)`; here the failing case
is pulled into its own `if`, which preserves the control flow exactly. -/
def HResourceAvailable.mk' (cacheControlMaxAge : Nat) (location : QUrl)
    (serverTokens : HProductTokens) (usn : HDiscoveryType)
    (bootId configId searchPort : Int) : HResourceAvailable :=
  let cc : Nat := clampCC cacheControlMaxAge
  if usn = .undefined then .default
  else if location.valid = false ∨ location.empty = true then .default
  else if 0 < serverTokens.upnpMinor ∧ (bootId < 0 ∨ configId < 0) then .default
  else
    let sp : Int :=
      if 0 < serverTokens.upnpMinor then
        if searchPort < 49152 ∨ 65535 < searchPort then -1 else searchPort
      else -1
    { m_serverTokens := serverTokens, m_usn := usn, m_location := location,
      m_cacheControlMaxAge := (cc : Int), m_bootId := bootId,
      m_configId := configId, m_searchPort := sp }

/-- `HResourceAvailable::isValid(bool strict)`. -/
def HResourceAvailable.isValid (r : HResourceAvailable) (strict : Bool) : Bool :=
  decide (r.m_usn ≠ HDiscoveryType.undefined) &&
    (if strict then r.m_serverTokens.valid else true)

/-! ### HResourceUnavailable (hdiscovery_messages.cpp:235-360) -/

/-- The fields of `HResourceUnavailablePrivate`. -/
structure HResourceUnavailable where
  m_usn : HDiscoveryType
  m_bootId : Int
  m_configId : Int
  m_sourceLocation : HEndpoint
  deriving DecidableEq, Repr, BEq

/-- `HResourceUnavailable()` — the default constructor. -/
def HResourceUnavailable.default : HResourceUnavailable :=
  { m_usn := .undefined, m_bootId := 0, m_configId := 0,
    m_sourceLocation := HEndpoint.default }

/-- The validating constructor `HResourceUnavailable::HResourceUnavailable`
(hdiscovery_messages.cpp:270-298). -/
def HResourceUnavailable.mk' (usn : HDiscoveryType) (sourceLocation : HEndpoint)
    (bootId configId : Int) : HResourceUnavailable :=
  if usn = .undefined then .default
  else if (bootId < 0 ∧ 0 ≤ configId) ∨ (configId < 0 ∧ 0 ≤ bootId) then .default
  else if bootId < 0 then
    { m_usn := usn, m_bootId := -1, m_configId := -1,
      m_sourceLocation := sourceLocation }
  else
    { m_usn := usn, m_bootId := bootId, m_configId := configId,
      m_sourceLocation := sourceLocation }

/-- `HResourceUnavailable::isValid(bool strict)` — `strict` is unused. -/
def HResourceUnavailable.isValid (r : HResourceUnavailable) (_strict : Bool) : Bool :=
  decide (r.m_usn ≠ HDiscoveryType.undefined)

/-! ### HResourceUpdate (hdiscovery_messages.cpp:362-513) -/

/-- The fields of `HResourceUpdatePrivate`. -/
structure HResourceUpdate where
  m_usn : HDiscoveryType
  m_location : QUrl
  m_bootId : Int
  m_configId : Int
  m_nextBootId : Int
  m_searchPort : Int
  deriving DecidableEq, Repr, BEq

/-- `HResourceUpdate()` — the default constructor. -/
def HResourceUpdate.default : HResourceUpdate :=
  { m_usn := .undefined, m_location := QUrl.default, m_bootId := 0,
    m_configId := 0, m_nextBootId := 0, m_searchPort := 0 }

/-- The validating constructor `HResourceUpdate::HResourceUpdate`
(hdiscovery_messages.cpp:400-443).  Note that only `location.isValid()`
is checked (no `isEmpty()` check, unlike `HResourceAvailable`). -/
def HResourceUpdate.mk' (location : QUrl) (usn : HDiscoveryType)
    (bootId configId nextBootId searchPort : Int) : HResourceUpdate :=
  if usn = .undefined then .default
  else if location.valid = false then .default
  else if (bootId < 0 ∧ (0 ≤ configId ∨ 0 ≤ nextBootId)) ∨
          (configId < 0 ∧ (0 ≤ bootId ∨ 0 ≤ nextBootId)) ∨
          (nextBootId < 0 ∧ (0 ≤ bootId ∨ 0 ≤ configId)) then .default
  else if bootId < 0 then
    { m_usn := usn, m_location := location, m_bootId := -1, m_configId := -1,
      m_nextBootId := -1, m_searchPort := -1 }
  else
    { m_usn := usn, m_location := location, m_bootId := bootId,
      m_configId := configId, m_nextBootId := nextBootId,
      m_searchPort :=
        if searchPort < 49152 ∨ 65535 < searchPort then -1 else searchPort }

/-- `HResourceUpdate::isValid(bool strict)` — `strict` is unused. -/
def HResourceUpdate.isValid (r : HResourceUpdate) (_strict : Bool) : Bool :=
  decide (r.m_usn ≠ HDiscoveryType.undefined)

/-- `operator==(const HResourceUpdate&, const HResourceUpdate&)`
(hdiscovery_messages.cpp:501-508).  The source compares `m_usn`,
`m_location`, `m_bootId`, `m_configId` and `m_searchPort` — and not
`m_nextBootId`. -/
def HResourceUpdate.eqOp (a b : HResourceUpdate) : Bool :=
  decide (a.m_usn = b.m_usn) &&
  decide (a.m_location = b.m_location) &&
  decide (a.m_bootId = b.m_bootId) &&
  decide (a.m_configId = b.m_configId) &&
  decide (a.m_searchPort = b.m_searchPort)

/-! ### HDiscoveryRequest (hdiscovery_messages.cpp:515-632) -/

/-- The fields of `HDiscoveryRequestPrivate`. -/
structure HDiscoveryRequest where
  m_st : HDiscoveryType
  m_mx : Int
  m_userAgent : HProductTokens
  deriving DecidableEq, Repr, BEq

/-- `HDiscoveryRequest()` — the default constructor
(`HDiscoveryRequestPrivate() : m_st(), m_mx(0), m_userAgent() {}`). -/
def HDiscoveryRequest.default : HDiscoveryRequest :=
  { m_st := .undefined, m_mx := 0, m_userAgent := HProductTokens.default }

/-- `HDiscoveryRequestPrivate::init` (hdiscovery_messages.cpp:530-562):
returns `none` where the source returns `false` without assigning the
fields.  An `mx < 1` is rejected; an `mx > 5` is set to 5; the user-agent
validity is only logged. -/
def HDiscoveryRequest.init (st : HDiscoveryType) (mx : Int)
    (userAgent : HProductTokens) : Option HDiscoveryRequest :=
  if st = .undefined then none
  else if mx < 1 then none
  else some { m_st := st, m_mx := if 5 < mx then 5 else mx,
              m_userAgent := userAgent }

/-- The constructor `HDiscoveryRequest::HDiscoveryRequest(mx, st, userAgent)`
(hdiscovery_messages.cpp:573-578): calls `init` on a default-initialised
private part; a failed `init` leaves the default object. -/
def HDiscoveryRequest.mk' (mx : Int) (st : HDiscoveryType)
    (userAgent : HProductTokens) : HDiscoveryRequest :=
  (HDiscoveryRequest.init st mx userAgent).getD HDiscoveryRequest.default

/-- `HDiscoveryRequest::isValid(bool strict)`. -/
def HDiscoveryRequest.isValid (r : HDiscoveryRequest) (strict : Bool) : Bool :=
  decide (r.m_st ≠ HDiscoveryType.undefined) &&
    (if strict then r.m_userAgent.valid else true)

/-! ### HDiscoveryResponse (hdiscovery_messages.cpp:634-808)

The `m_date` field (a wall-clock `QDateTime` taken from
`QDateTime::currentDateTime()`) is omitted: it is excluded from
`operator==` by the source itself and no claim mentions it. -/

/-- The fields of `HDiscoveryResponsePrivate` (without `m_date`). -/
structure HDiscoveryResponse where
  m_serverTokens : HProductTokens
  m_usn : HDiscoveryType
  m_location : QUrl
  m_cacheControlMaxAge : Int
  m_bootId : Int
  m_configId : Int
  m_searchPort : Int
  deriving DecidableEq, Repr, BEq

/-- `HDiscoveryResponse()` — the default constructor. -/
def HDiscoveryResponse.default : HDiscoveryResponse :=
  { m_serverTokens := HProductTokens.default, m_usn := .undefined,
    m_location := QUrl.default, m_cacheControlMaxAge := 0,
    m_bootId := 0, m_configId := 0, m_searchPort := 0 }

/-- The validating constructor `HDiscoveryResponse::HDiscoveryResponse`
(hdiscovery_messages.cpp:668-720).  Unlike `HResourceAvailable`, the
search port is stored as given: there is no range check in this
constructor. -/
def HDiscoveryResponse.mk' (cacheControlMaxAge : Nat) (location : QUrl)
    (serverTokens : HProductTokens) (usn : HDiscoveryType)
    (bootId configId searchPort : Int) : HDiscoveryResponse :=
  let cc : Nat := clampCC cacheControlMaxAge
  if usn = .undefined then .default
  else if location.valid = false then .default
  else if 0 < serverTokens.upnpMinor ∧ (bootId < 0 ∨ configId < 0) then .default
  else
    { m_serverTokens := serverTokens, m_usn := usn, m_location := location,
      m_cacheControlMaxAge := (cc : Int), m_bootId := bootId,
      m_configId := configId, m_searchPort := searchPort }

/-- `HDiscoveryResponse::isValid(bool strict)`. -/
def HDiscoveryResponse.isValid (r : HDiscoveryResponse) (strict : Bool) : Bool :=
  decide (r.m_usn ≠ HDiscoveryType.undefined) &&
    (if strict then r.m_serverTokens.valid else true)

/-! ### HHttpServer::processRequest (hhttp_server_p.cpp:110-224)

The per-connection request loop.  We embed the handling of one
successfully received request (the loop body after
`m_httpHandler.receive` returned `Success`): start-line validation,
HOST-header check, and the dispatch on the request method. -/

/-- `QString::compare(a, b, Qt::CaseInsensitive) == 0`: the two strings
are equal once both are upper-cased character by character. -/
def eqCI (a b : String) : Bool :=
  a.data.map Char.toUpper == b.data.map Char.toUpper

/-- The value of the `Qt::CaseInsensitive` enumerator (`Qt::CaseSensitive`
is 0, `Qt::CaseInsensitive` is 1). -/
def qtCaseInsensitive : Int := 1

/-- The handler a request is dispatched to, one constructor per branch of
the method dispatch — the last constructor is the `else` branch that sends
405 (`MethotNotAllowed`, spelling as in the source enum) and breaks. -/
inductive Dispatch where
  | processGet
  | processHead
  | processPost
  | processNotifyMessage
  | processSubscription
  | processUnsubscription
  | methotNotAllowed
  deriving DecidableEq, Repr, BEq

/-- The method dispatch of `HHttpServer::processRequest`
(hhttp_server_p.cpp:167-196).  The second branch reproduces the source
exactly: its condition is the C++ comma expression
`(method.compare("HEAD"), Qt::CaseInsensitive)`, whose value is
`Qt::CaseInsensitive` — non-zero, hence true — whatever `method` is;
`method.compare("HEAD")` is evaluated and discarded. -/
def dispatchMethod (method : String) : Dispatch :=
  if eqCI method "GET" then .processGet
  else if qtCaseInsensitive ≠ 0 then .processHead
  else if eqCI method "POST" then .processPost
  else if eqCI method "NOTIFY" then .processNotifyMessage
  else if eqCI method "SUBSCRIBE" then .processSubscription
  else if eqCI method "UNSUBSCRIBE" then .processUnsubscription
  else .methotNotAllowed

/-- The part of a received `QHttpRequestHeader` the loop body inspects:
`isValid()` (the start line parsed), `value("HOST")`, and `method()`. -/
structure HttpRequest where
  startLineValid : Bool
  host : String
  method : String
  deriving DecidableEq, Repr

/-- Outcome of one loop iteration on a successfully received request:
either `400 Bad Request` is sent and the loop `break`s (the connection is
then flushed and disconnected at hhttp_server_p.cpp:212-220), or the
request is dispatched to a handler. -/
inductive StepResult where
  | respondBadRequestAndBreak
  | dispatched (d : Dispatch)
  deriving DecidableEq, Repr

/-- The loop body of `HHttpServer::processRequest`
(hhttp_server_p.cpp:144-196) for a successfully received request:
an invalid start line or an absent/empty HOST header sends `BadRequest`
and breaks; otherwise the request is dispatched by method. -/
def processStep (r : HttpRequest) : StepResult :=
  if r.startLineValid = false then .respondBadRequestAndBreak
  else if r.host = "" then .respondBadRequestAndBreak
  else .dispatched (dispatchMethod r.method)

/-! ### Action invocation proxy queue

Modelled from the spec: the implementation of
`HActionInvokeProxyImpl::beginInvoke` / `invokeCompleted` (and of
`HClientActionPrivate::invokeCompleted`) is not among the sources — only
the declarations in `hactioninvoke_proxy_p.h` are, with their
`QQueue<HAsyncInvocation*> m_invocations` and the single
`HActionProxy::m_invocationInProgress` slot.  The spec (§4.6):
"Invocations from the same control point to the same action are queued
per proxy: at most one is in flight against a given service's control URL
at a time."  Invocations are identified by a `Nat`. -/

/-- Proxy state: the single in-flight slot
(`HActionProxy::m_invocationInProgress`, a nullable pointer, hence an
`Option`) and the FIFO queue (`m_invocations`). -/
structure ProxyState where
  invocationInProgress : Option Nat
  invocations : List Nat
  deriving DecidableEq, Repr

/-- Events at the proxy boundary: a user submits an invocation
(`beginInvoke`), or the in-flight invocation completes
(`invokeCompleted`). -/
inductive ProxyEvent where
  | beginInvoke (inv : Nat)
  | invokeCompleted
  deriving DecidableEq, Repr

/-- One step of the proxy.  Returns the new state together with the list
of invocations sent to the network during the step (empty or a
singleton).  `beginInvoke` sends immediately when the proxy is idle and
queues otherwise; `invokeCompleted` sends the head of the queue, if
any. -/
def ProxyState.step (s : ProxyState) : ProxyEvent → ProxyState × List Nat
  | .beginInvoke inv =>
      match s.invocationInProgress with
      | none => ({ invocationInProgress := some inv,
                   invocations := s.invocations }, [inv])
      | some cur => ({ invocationInProgress := some cur,
                       invocations := s.invocations ++ [inv] }, [])
  | .invokeCompleted =>
      match s.invocations with
      | [] => ({ invocationInProgress := none, invocations := [] }, [])
      | next :: rest => ({ invocationInProgress := some next,
                           invocations := rest }, [next])

/-- Run the proxy over a list of events, concatenating the sends. -/
def ProxyState.run : ProxyState → List ProxyEvent → ProxyState × List Nat
  | s, [] => (s, [])
  | s, e :: es =>
      let p := s.step e
      let q := p.1.run es
      (q.1, p.2 ++ q.2)

/-- The invocations submitted by a list of events, in submission order. -/
def submittedOf : List ProxyEvent → List Nat
  | [] => []
  | .beginInvoke i :: es => i :: submittedOf es
  | .invokeCompleted :: es => submittedOf es

/-- Well-formedness: an idle proxy has an empty queue (nothing waits while
nothing is in flight). -/
def ProxyState.wf (s : ProxyState) : Bool :=
  s.invocationInProgress.isSome || s.invocations.isEmpty

/-- The initial state of a proxy: idle, empty queue. -/
def ProxyState.initial : ProxyState :=
  { invocationInProgress := none, invocations := [] }

/-! ## Helper lemmas -/

/-- A failed validation path of `HResourceAvailable::HResourceAvailable`
yields the default object: every `return` precedes the assignments. -/
theorem avail_mk_fail (cacheControlMaxAge : Nat) (location : QUrl)
    (serverTokens : HProductTokens) (usn : HDiscoveryType)
    (bootId configId searchPort : Int)
    (h : usn = .undefined ∨ location.valid = false ∨ location.empty = true ∨
         (0 < serverTokens.upnpMinor ∧ (bootId < 0 ∨ configId < 0))) :
    HResourceAvailable.mk' cacheControlMaxAge location serverTokens usn
      bootId configId searchPort = HResourceAvailable.default := by
  unfold HResourceAvailable.mk'
  split_ifs with h1 h2 h3 <;> first | rfl | tauto

/-- A failed validation path of `HResourceUnavailable::HResourceUnavailable`
yields the default object. -/
theorem unavail_mk_fail (usn : HDiscoveryType) (ep : HEndpoint)
    (bootId configId : Int)
    (h : usn = .undefined ∨ (bootId < 0 ∧ 0 ≤ configId) ∨
         (configId < 0 ∧ 0 ≤ bootId)) :
    HResourceUnavailable.mk' usn ep bootId configId
      = HResourceUnavailable.default := by
  unfold HResourceUnavailable.mk'
  split_ifs with h1 h2 h3 <;> first | rfl | tauto

/-- A failed validation path of `HResourceUpdate::HResourceUpdate`
yields the default object. -/
theorem update_mk_fail (location : QUrl) (usn : HDiscoveryType)
    (bootId configId nextBootId searchPort : Int)
    (h : usn = .undefined ∨ location.valid = false ∨
         (bootId < 0 ∧ (0 ≤ configId ∨ 0 ≤ nextBootId)) ∨
         (configId < 0 ∧ (0 ≤ bootId ∨ 0 ≤ nextBootId)) ∨
         (nextBootId < 0 ∧ (0 ≤ bootId ∨ 0 ≤ configId))) :
    HResourceUpdate.mk' location usn bootId configId nextBootId searchPort
      = HResourceUpdate.default := by
  unfold HResourceUpdate.mk'
  split_ifs with h1 h2 h3 h4 <;> first | rfl | tauto

/-- A failed validation path of `HDiscoveryResponse::HDiscoveryResponse`
yields the default object. -/
theorem response_mk_fail (cacheControlMaxAge : Nat) (location : QUrl)
    (serverTokens : HProductTokens) (usn : HDiscoveryType)
    (bootId configId searchPort : Int)
    (h : usn = .undefined ∨ location.valid = false ∨
         (0 < serverTokens.upnpMinor ∧ (bootId < 0 ∨ configId < 0))) :
    HDiscoveryResponse.mk' cacheControlMaxAge location serverTokens usn
      bootId configId searchPort = HDiscoveryResponse.default := by
  unfold HDiscoveryResponse.mk'
  split_ifs with h1 h2 h3 <;> first | rfl | tauto

/-- The default `HResourceAvailable` is invalid for either strictness. -/
theorem avail_default_not_valid (strict : Bool) :
    HResourceAvailable.default.isValid strict = false := by
  cases strict <;> rfl

/-- The default `HResourceUnavailable` is invalid. -/
theorem unavail_default_not_valid (strict : Bool) :
    HResourceUnavailable.default.isValid strict = false := rfl

/-- The default `HResourceUpdate` is invalid. -/
theorem update_default_not_valid (strict : Bool) :
    HResourceUpdate.default.isValid strict = false := rfl

/-- The default `HDiscoveryResponse` is invalid for either strictness. -/
theorem response_default_not_valid (strict : Bool) :
    HDiscoveryResponse.default.isValid strict = false := by
  cases strict <;> rfl

/-- The max-age clamp of the constructors equals `clamp(x, 5, 86400)`. -/
theorem clamp_cc_eq (x : Nat) : clampCC x = max 5 (min x 86400) := by
  unfold clampCC
  split_ifs <;> omega

/-! ## Claims -/

/-- Claim C1: the server was claimed to dispatch strictly by method
equality (GET to the GET handler, POST+SOAPACTION to control, NOTIFY to
event reception, SUBSCRIBE/UNSUBSCRIBE to the subscription handlers, and
nothing but HEAD to the HEAD handler).  The source contradicts this: the
HEAD branch of `HHttpServer::processRequest` tests the comma expression
`(method.compare("HEAD"), Qt::CaseInsensitive)`, which is always true, so
every request whose method is not GET — POST, NOTIFY, SUBSCRIBE and
UNSUBSCRIBE included — is routed to the HEAD handler. -/
theorem c1_non_get_methods_fall_into_head_branch :
    dispatchMethod "POST" = Dispatch.processHead ∧
    dispatchMethod "POST" ≠ Dispatch.processPost ∧
    dispatchMethod "NOTIFY" = Dispatch.processHead ∧
    dispatchMethod "SUBSCRIBE" = Dispatch.processHead ∧
    dispatchMethod "UNSUBSCRIBE" = Dispatch.processHead ∧
    dispatchMethod "HEAD" = Dispatch.processHead ∧
    dispatchMethod "GET" = Dispatch.processGet := by
  decide

/-- Claim C2: a request whose method is none of
GET/HEAD/POST/NOTIFY/SUBSCRIBE/UNSUBSCRIBE was claimed to receive
`405 Method Not Allowed` from the dispatcher's final `else` branch.  The
source contradicts this: because the HEAD branch condition is the always
true comma expression, an unknown method such as DELETE is routed to the
HEAD handler and the `else` branch sending 405 is unreachable. -/
theorem c2_unknown_method_routed_to_head_branch :
    dispatchMethod "DELETE" = Dispatch.processHead ∧
    dispatchMethod "DELETE" ≠ Dispatch.methotNotAllowed := by
  decide

/-- Claim C7: a received request whose start line is ill-formed
(`requestHeader.isValid()` false) or whose HOST header is missing/empty is
answered with `400 Bad Request`, and the per-connection request loop
terminates (`break`, after which the socket is flushed and
disconnected). -/
theorem c7_bad_request_on_bad_start_line_or_missing_host
    (r : HttpRequest) (h : r.startLineValid = false ∨ r.host = "") :
    processStep r = StepResult.respondBadRequestAndBreak := by
  unfold processStep
  rcases h with h | h <;> simp [h]

/-- Witness for C7 at two concrete requests: one with a valid start line
but no HOST header, one with an ill-formed start line. -/
theorem c7_bad_request_witness :
    processStep { startLineValid := true, host := "", method := "GET" }
        = StepResult.respondBadRequestAndBreak ∧
    processStep { startLineValid := false, host := "h", method := "GET" }
        = StepResult.respondBadRequestAndBreak :=
  ⟨c7_bad_request_on_bad_start_line_or_missing_host
      { startLineValid := true, host := "", method := "GET" } (Or.inr rfl),
   c7_bad_request_on_bad_start_line_or_missing_host
      { startLineValid := false, host := "h", method := "GET" } (Or.inl rfl)⟩

/-- Claim C10: `operator==` on `HResourceUpdate` compares USN, location,
bootId, configId and searchPort only — `m_nextBootId` does not participate
— so two updates that agree on those five fields compare equal whatever
their nextBootIds are. -/
theorem c10_resource_update_eq_ignores_next_boot_id
    (a b : HResourceUpdate)
    (h1 : a.m_usn = b.m_usn) (h2 : a.m_location = b.m_location)
    (h3 : a.m_bootId = b.m_bootId) (h4 : a.m_configId = b.m_configId)
    (h5 : a.m_searchPort = b.m_searchPort) :
    HResourceUpdate.eqOp a b = true := by
  simp [HResourceUpdate.eqOp, h1, h2, h3, h4, h5]

/-- Witness for C10: two validly constructed ssdp:update messages that
differ only in nextBootId (3 vs 4) compare equal. -/
theorem c10_resource_update_eq_witness :
    HResourceUpdate.eqOp
      (HResourceUpdate.mk' { valid := true, empty := false, tag := 1 }
        (.defined 1) 1 2 3 50000)
      (HResourceUpdate.mk' { valid := true, empty := false, tag := 1 }
        (.defined 1) 1 2 4 50000) = true ∧
    (HResourceUpdate.mk' { valid := true, empty := false, tag := 1 }
        (.defined 1) 1 2 3 50000).m_nextBootId ≠
    (HResourceUpdate.mk' { valid := true, empty := false, tag := 1 }
        (.defined 1) 1 2 4 50000).m_nextBootId :=
  ⟨c10_resource_update_eq_ignores_next_boot_id _ _
      (by decide) (by decide) (by decide) (by decide) (by decide),
   by decide⟩

/-- Claim C3 counterexample: the claim says the MX carried by a
constructed `HDiscoveryRequest` is `clamp(mx, 1, 5)`, so that `mx = 0`
would yield a valid message with MX = 1.  In the source
`HDiscoveryRequestPrivate::init` returns `false` for `mx < 1` without
assigning anything, so at `mx = 0` (with a defined search target) the
constructed object carries MX = 0, not 1, and is invalid. -/
theorem c3_mx_below_one_not_clamped :
    (HDiscoveryRequest.mk' 0 (.defined 1) HProductTokens.default).m_mx = 0 ∧
    (0 : Int) ≠ 1 ∧
    (HDiscoveryRequest.mk' 0 (.defined 1) HProductTokens.default).isValid false
      = false := by
  decide

/-- Claim C3 as amended: for a defined search target, an `mx ≥ 1` yields a
message with MX = `min mx 5` (so values above 5 are clamped to 5), while an
`mx < 1` makes construction fail — the object stays the invalid default
with MX = 0. -/
theorem c3_mx_clamped_above_rejected_below
    (st : HDiscoveryType) (mx : Int) (ua : HProductTokens)
    (hst : st ≠ HDiscoveryType.undefined) :
    (1 ≤ mx →
      (HDiscoveryRequest.mk' mx st ua).m_mx = min mx 5 ∧
      (HDiscoveryRequest.mk' mx st ua).isValid false = true) ∧
    (mx < 1 →
      HDiscoveryRequest.mk' mx st ua = HDiscoveryRequest.default) := by
  unfold HDiscoveryRequest.mk' HDiscoveryRequest.init
  rw [if_neg hst]
  constructor
  · intro h1
    rw [if_neg (by omega : ¬ mx < 1)]
    refine ⟨?_, ?_⟩
    · show (if 5 < mx then 5 else mx) = min mx 5
      split_ifs <;> omega
    · simp [HDiscoveryRequest.isValid, hst]
  · intro h1
    rw [if_pos h1]
    rfl

/-- Witness for the amended C3: `mx = 7` is clamped to 5 and valid;
`mx = 0` leaves the default object. -/
theorem c3_mx_clamp_witness :
    ((HDiscoveryRequest.mk' 7 (.defined 1) HProductTokens.default).m_mx = 5 ∧
     (HDiscoveryRequest.mk' 7 (.defined 1) HProductTokens.default).isValid false
       = true) ∧
    HDiscoveryRequest.mk' 0 (.defined 1) HProductTokens.default
      = HDiscoveryRequest.default := by
  refine ⟨?_, ?_⟩
  · have h := (c3_mx_clamped_above_rejected_below (.defined 1) 7
      HProductTokens.default (by decide)).1 (by norm_num)
    simpa using h
  · exact (c3_mx_clamped_above_rejected_below (.defined 1) 0
      HProductTokens.default (by decide)).2 (by norm_num)

/-- Claim C4 counterexample: the claim says that with a defined USN and a
valid location the stored max-age is `clamp(x, 5, 86400)` for every input
`x`.  But when the server tokens advertise UPnP/1.1 and `bootId = -1`, the
constructor returns before assigning anything, so at `x = 100` the stored
max-age is 0, not 100. -/
theorem c4_max_age_not_clamped_on_rejected_construction :
    (HResourceAvailable.mk' 100 { valid := true, empty := false, tag := 1 }
        { valid := true, upnpMinor := 1, tag := 2 } (.defined 1)
        (-1) 0 50000).m_cacheControlMaxAge = 0 ∧
    ((0 : Int) ≠ (max 5 (min 100 86400) : Nat)) ∧
    (HDiscoveryResponse.mk' 100 { valid := true, empty := false, tag := 1 }
        { valid := true, upnpMinor := 1, tag := 2 } (.defined 1)
        (-1) 0 50000).m_cacheControlMaxAge = 0 := by
  decide

/-- Claim C4 as amended: with a defined USN, a valid (and, for
`HResourceAvailable`, non-empty) location, and — whenever the server
tokens advertise a UPnP minor version above 0 — non-negative bootId and
configId, the max-age stored by both `HResourceAvailable` and
`HDiscoveryResponse` is `clamp(x, 5, 86400)`. -/
theorem c4_max_age_clamped_on_successful_construction
    (x : Nat) (loc : QUrl) (tokens : HProductTokens) (usn : HDiscoveryType)
    (bootId configId searchPort : Int)
    (husn : usn ≠ HDiscoveryType.undefined)
    (hval : loc.valid = true) (hemp : loc.empty = false)
    (hids : 0 < tokens.upnpMinor → 0 ≤ bootId ∧ 0 ≤ configId) :
    (HResourceAvailable.mk' x loc tokens usn bootId configId
        searchPort).m_cacheControlMaxAge = ((max 5 (min x 86400) : Nat) : Int) ∧
    (HDiscoveryResponse.mk' x loc tokens usn bootId configId
        searchPort).m_cacheControlMaxAge = ((max 5 (min x 86400) : Nat) : Int) := by
  have hloc : ¬ (loc.valid = false ∨ loc.empty = true) := by
    simp [hval, hemp]
  have hver : ¬ (0 < tokens.upnpMinor ∧ (bootId < 0 ∨ configId < 0)) := by
    rintro ⟨hm, hd⟩
    rcases hids hm with ⟨hb, hc⟩
    omega
  constructor
  · unfold HResourceAvailable.mk'
    rw [if_neg husn, if_neg hloc, if_neg hver]
    show ((clampCC x : Nat) : Int) = _
    rw [clamp_cc_eq]
  · unfold HDiscoveryResponse.mk'
    rw [if_neg husn, if_neg (by simp [hval] : ¬ loc.valid = false), if_neg hver]
    show ((clampCC x : Nat) : Int) = _
    rw [clamp_cc_eq]

/-- Witness for the amended C4 at `x = 100000` (clamped to 86400) with
UPnP/1.1 tokens and non-negative version ids. -/
theorem c4_max_age_clamp_witness :
    (HResourceAvailable.mk' 100000 { valid := true, empty := false, tag := 1 }
        { valid := true, upnpMinor := 1, tag := 2 } (.defined 1)
        1 7 50000).m_cacheControlMaxAge = 86400 ∧
    (HDiscoveryResponse.mk' 100000 { valid := true, empty := false, tag := 1 }
        { valid := true, upnpMinor := 1, tag := 2 } (.defined 1)
        1 7 50000).m_cacheControlMaxAge = 86400 := by
  have h := c4_max_age_clamped_on_successful_construction 100000
    { valid := true, empty := false, tag := 1 }
    { valid := true, upnpMinor := 1, tag := 2 } (.defined 1)
    1 7 50000 (by decide) rfl rfl (by intro _h; exact ⟨by norm_num, by norm_num⟩)
  simpa using h

/-- Claim C5 counterexample: the claim says every variant carrying a
search port (`HResourceAvailable`, `HResourceUpdate`,
`HDiscoveryResponse`) stores an out-of-range search port as absent (-1).
The `HDiscoveryResponse` constructor contains no range check at all: a
validly constructed response with search port 70000 (> 65535) stores
70000. -/
theorem c5_discovery_response_keeps_out_of_range_search_port :
    (HDiscoveryResponse.mk' 1800 { valid := true, empty := false, tag := 1 }
        { valid := true, upnpMinor := 1, tag := 2 } (.defined 1)
        1 7 70000).m_searchPort = 70000 ∧
    (65535 : Int) < 70000 ∧ (70000 : Int) ≠ -1 ∧
    (HDiscoveryResponse.mk' 1800 { valid := true, empty := false, tag := 1 }
        { valid := true, upnpMinor := 1, tag := 2 } (.defined 1)
        1 7 70000).isValid true = true := by
  decide

/-- Claim C5 as amended: on a successfully validating construction,
`HResourceAvailable` and `HResourceUpdate` store an out-of-range search
port as absent (-1), but `HDiscoveryResponse` stores the given search
port unchanged. -/
theorem c5_search_port_dropped_except_discovery_response
    (x : Nat) (loc : QUrl) (tokens : HProductTokens) (usn : HDiscoveryType)
    (bootId configId nextBootId searchPort : Int)
    (hsp : searchPort < 49152 ∨ 65535 < searchPort) :
    ((usn ≠ HDiscoveryType.undefined ∧ loc.valid = true ∧ loc.empty = false ∧
        (0 < tokens.upnpMinor → 0 ≤ bootId ∧ 0 ≤ configId)) →
      (HResourceAvailable.mk' x loc tokens usn bootId configId
          searchPort).m_searchPort = -1) ∧
    ((usn ≠ HDiscoveryType.undefined ∧ loc.valid = true ∧
        ((0 ≤ bootId ∧ 0 ≤ configId ∧ 0 ≤ nextBootId) ∨
         (bootId < 0 ∧ configId < 0 ∧ nextBootId < 0))) →
      (HResourceUpdate.mk' loc usn bootId configId nextBootId
          searchPort).m_searchPort = -1) ∧
    ((usn ≠ HDiscoveryType.undefined ∧ loc.valid = true ∧
        (0 < tokens.upnpMinor → 0 ≤ bootId ∧ 0 ≤ configId)) →
      (HDiscoveryResponse.mk' x loc tokens usn bootId configId
          searchPort).m_searchPort = searchPort) := by
  refine ⟨?_, ?_, ?_⟩
  · rintro ⟨husn, hval, hemp, hids⟩
    unfold HResourceAvailable.mk'
    rw [if_neg husn, if_neg (by simp [hval, hemp]),
        if_neg (fun hx => by rcases hids hx.1 with ⟨hb, hc⟩; omega)]
    show (if 0 < tokens.upnpMinor then
            if searchPort < 49152 ∨ 65535 < searchPort then -1 else searchPort
          else -1) = -1
    split_ifs <;> tauto
  · rintro ⟨husn, hval, hcons⟩
    unfold HResourceUpdate.mk'
    rw [if_neg husn, if_neg (by simp [hval]),
        if_neg (by rcases hcons with ⟨hb, hc, hn⟩ | ⟨hb, hc, hn⟩ <;> rintro (⟨h, _⟩ | ⟨h, _⟩ | ⟨h, _⟩) <;> omega)]
    split_ifs <;> rfl
  · rintro ⟨husn, hval, hids⟩
    unfold HDiscoveryResponse.mk'
    rw [if_neg husn, if_neg (by simp [hval]),
        if_neg (fun hx => by rcases hids hx.1 with ⟨hb, hc⟩; omega)]

/-- Witness for the amended C5 at search port 70000 with UPnP/1.1 tokens,
defined USN, valid location and consistent version ids. -/
theorem c5_search_port_witness :
    (HResourceAvailable.mk' 1800 { valid := true, empty := false, tag := 1 }
        { valid := true, upnpMinor := 1, tag := 2 } (.defined 1)
        1 7 70000).m_searchPort = -1 ∧
    (HResourceUpdate.mk' { valid := true, empty := false, tag := 1 }
        (.defined 1) 1 7 2 70000).m_searchPort = -1 ∧
    (HDiscoveryResponse.mk' 1800 { valid := true, empty := false, tag := 1 }
        { valid := true, upnpMinor := 1, tag := 2 } (.defined 1)
        1 7 70000).m_searchPort = 70000 := by
  have h := c5_search_port_dropped_except_discovery_response 1800
    { valid := true, empty := false, tag := 1 }
    { valid := true, upnpMinor := 1, tag := 2 } (.defined 1)
    1 7 2 70000 (by norm_num)
  exact ⟨h.1 (by refine ⟨by decide, rfl, rfl, fun _h => ⟨by norm_num, by norm_num⟩⟩),
         h.2.1 (by refine ⟨by decide, rfl, Or.inl ⟨by norm_num, by norm_num, by norm_num⟩⟩),
         h.2.2 (by refine ⟨by decide, rfl, fun _h => ⟨by norm_num, by norm_num⟩⟩)⟩

/-- Claim C6: when the server tokens advertise a UPnP minor version above
0 (UPnP/1.1), constructing an `HResourceAvailable` or `HDiscoveryResponse`
with a negative bootId or configId is rejected: the object stays the
default and `isValid` is false for either strictness. -/
theorem c6_upnp11_requires_boot_and_config_ids
    (x : Nat) (loc : QUrl) (tokens : HProductTokens) (usn : HDiscoveryType)
    (bootId configId searchPort : Int) (strict : Bool)
    (hm : 0 < tokens.upnpMinor) (hid : bootId < 0 ∨ configId < 0) :
    HResourceAvailable.mk' x loc tokens usn bootId configId searchPort
        = HResourceAvailable.default ∧
    (HResourceAvailable.mk' x loc tokens usn bootId configId
        searchPort).isValid strict = false ∧
    HDiscoveryResponse.mk' x loc tokens usn bootId configId searchPort
        = HDiscoveryResponse.default ∧
    (HDiscoveryResponse.mk' x loc tokens usn bootId configId
        searchPort).isValid strict = false := by
  have h1 := avail_mk_fail x loc tokens usn bootId configId
    searchPort (Or.inr (Or.inr (Or.inr ⟨hm, hid⟩)))
  have h2 := response_mk_fail x loc tokens usn bootId configId
    searchPort (Or.inr (Or.inr ⟨hm, hid⟩))
  exact ⟨h1, by rw [h1]; exact avail_default_not_valid strict,
         h2, by rw [h2]; exact response_default_not_valid strict⟩

/-- Witness for C6: UPnP/1.1 tokens with `bootId = -1` and `configId = 7`,
a defined USN and a valid location still produce the invalid default. -/
theorem c6_upnp11_version_ids_witness :
    HResourceAvailable.mk' 1800 { valid := true, empty := false, tag := 1 }
        { valid := true, upnpMinor := 1, tag := 2 } (.defined 1) (-1) 7 50000
      = HResourceAvailable.default ∧
    (HResourceAvailable.mk' 1800 { valid := true, empty := false, tag := 1 }
        { valid := true, upnpMinor := 1, tag := 2 } (.defined 1)
        (-1) 7 50000).isValid false = false ∧
    HDiscoveryResponse.mk' 1800 { valid := true, empty := false, tag := 1 }
        { valid := true, upnpMinor := 1, tag := 2 } (.defined 1) (-1) 7 50000
      = HDiscoveryResponse.default ∧
    (HDiscoveryResponse.mk' 1800 { valid := true, empty := false, tag := 1 }
        { valid := true, upnpMinor := 1, tag := 2 } (.defined 1)
        (-1) 7 50000).isValid false = false :=
  c6_upnp11_requires_boot_and_config_ids 1800
    { valid := true, empty := false, tag := 1 }
    { valid := true, upnpMinor := 1, tag := 2 } (.defined 1)
    (-1) 7 50000 false (by norm_num) (Or.inl (by norm_num))

/-- Claim C9: when constructor argument validation fails — an undefined
USN, an invalid (or, for `HResourceAvailable`, empty) location, or
inconsistent bootId/configId/nextBootId — no field is assigned: the
constructed `HResourceAvailable`, `HResourceUnavailable` or
`HResourceUpdate` equals the default-constructed instance (hence every
accessor returns its default value) and `isValid false` is false. -/
theorem c9_failed_validation_yields_default_object
    (x : Nat) (loc : QUrl) (tokens : HProductTokens) (usn : HDiscoveryType)
    (ep : HEndpoint) (bootId configId nextBootId searchPort : Int) :
    ((usn = HDiscoveryType.undefined ∨ loc.valid = false ∨ loc.empty = true ∨
        (0 < tokens.upnpMinor ∧ (bootId < 0 ∨ configId < 0))) →
      HResourceAvailable.mk' x loc tokens usn bootId configId searchPort
          = HResourceAvailable.default ∧
      (HResourceAvailable.mk' x loc tokens usn bootId configId
          searchPort).isValid false = false) ∧
    ((usn = HDiscoveryType.undefined ∨ (bootId < 0 ∧ 0 ≤ configId) ∨
        (configId < 0 ∧ 0 ≤ bootId)) →
      HResourceUnavailable.mk' usn ep bootId configId
          = HResourceUnavailable.default ∧
      (HResourceUnavailable.mk' usn ep bootId configId).isValid false
          = false) ∧
    ((usn = HDiscoveryType.undefined ∨ loc.valid = false ∨
        (bootId < 0 ∧ (0 ≤ configId ∨ 0 ≤ nextBootId)) ∨
        (configId < 0 ∧ (0 ≤ bootId ∨ 0 ≤ nextBootId)) ∨
        (nextBootId < 0 ∧ (0 ≤ bootId ∨ 0 ≤ configId))) →
      HResourceUpdate.mk' loc usn bootId configId nextBootId searchPort
          = HResourceUpdate.default ∧
      (HResourceUpdate.mk' loc usn bootId configId nextBootId
          searchPort).isValid false = false) := by
  refine ⟨fun h => ?_, fun h => ?_, fun h => ?_⟩
  · have hd := avail_mk_fail x loc tokens usn bootId configId
      searchPort h
    exact ⟨hd, by rw [hd]; exact avail_default_not_valid false⟩
  · have hd := unavail_mk_fail usn ep bootId configId h
    exact ⟨hd, by rw [hd]; exact unavail_default_not_valid false⟩
  · have hd := update_mk_fail loc usn bootId configId nextBootId
      searchPort h
    exact ⟨hd, by rw [hd]; exact update_default_not_valid false⟩

/-- Witness for C9: inconsistent version ids (`bootId = -1`,
`configId = 7`, `nextBootId = 3`) with a defined USN and valid location
leave all three message types at their invalid defaults. -/
theorem c9_failed_validation_witness :
    (HResourceAvailable.mk' 1800 { valid := true, empty := false, tag := 1 }
        { valid := true, upnpMinor := 1, tag := 2 } (.defined 1) (-1) 7 50000
      = HResourceAvailable.default ∧
     (HResourceAvailable.mk' 1800 { valid := true, empty := false, tag := 1 }
        { valid := true, upnpMinor := 1, tag := 2 } (.defined 1)
        (-1) 7 50000).isValid false = false) ∧
    (HResourceUnavailable.mk' (.defined 1) { tag := 3 } (-1) 7
      = HResourceUnavailable.default ∧
     (HResourceUnavailable.mk' (.defined 1) { tag := 3 } (-1) 7).isValid false
      = false) ∧
    (HResourceUpdate.mk' { valid := true, empty := false, tag := 1 }
        (.defined 1) (-1) 7 3 50000 = HResourceUpdate.default ∧
     (HResourceUpdate.mk' { valid := true, empty := false, tag := 1 }
        (.defined 1) (-1) 7 3 50000).isValid false = false) := by
  have h := c9_failed_validation_yields_default_object 1800
    { valid := true, empty := false, tag := 1 }
    { valid := true, upnpMinor := 1, tag := 2 } (.defined 1) { tag := 3 }
    (-1) 7 3 50000
  exact ⟨h.1 (Or.inr (Or.inr (Or.inr ⟨by norm_num, Or.inl (by norm_num)⟩))),
         h.2.1 (Or.inr (Or.inl ⟨by norm_num, by norm_num⟩)),
         h.2.2 (Or.inr (Or.inr (Or.inl ⟨by norm_num, Or.inl (by norm_num)⟩)))⟩

/-- Invariant of a proxy run: starting from a state whose queue is empty
whenever the proxy is idle, the invocations submitted during the run are
sent in order — the sends are exactly the old queue followed by the
submissions, minus the suffix still waiting in the final queue — and the
final state again has an empty queue whenever idle. -/
theorem ProxyState.run_fifo (es : List ProxyEvent) (s : ProxyState)
    (h : s.invocationInProgress = none → s.invocations = []) :
    s.invocations ++ submittedOf es
        = (s.run es).2 ++ (s.run es).1.invocations ∧
    ((s.run es).1.invocationInProgress = none →
        (s.run es).1.invocations = []) := by
  induction es generalizing s with
  | nil =>
    constructor
    · simp [ProxyState.run, submittedOf]
    · simpa [ProxyState.run] using h
  | cons e es ih =>
    cases e with
    | beginInvoke i =>
      cases hin : s.invocationInProgress with
      | none =>
        have hq := h hin
        have hrec := ih { invocationInProgress := some i,
                          invocations := s.invocations }
          (fun hc => by simp at hc)
        have h1 := hrec.1
        rw [hq] at h1
        simp only [List.nil_append] at h1
        simp only [ProxyState.run, ProxyState.step, hin, submittedOf]
        refine ⟨?_, hrec.2⟩
        simp [hq, List.append_assoc, ← h1]
      | some cur =>
        have hrec := ih { invocationInProgress := some cur,
                          invocations := s.invocations ++ [i] }
          (fun hc => by simp at hc)
        simp only [ProxyState.run, ProxyState.step, hin, submittedOf]
        refine ⟨?_, hrec.2⟩
        simpa [List.append_assoc] using hrec.1
    | invokeCompleted =>
      cases hq : s.invocations with
      | nil =>
        have hrec := ih { invocationInProgress := none, invocations := [] }
          (fun _ => rfl)
        simp only [ProxyState.run, ProxyState.step, hq, submittedOf]
        refine ⟨?_, hrec.2⟩
        simpa using hrec.1
      | cons next rest =>
        have hrec := ih { invocationInProgress := some next,
                          invocations := rest }
          (fun hc => by simp at hc)
        simp only [ProxyState.run, ProxyState.step, hq, submittedOf]
        refine ⟨?_, hrec.2⟩
        simp [List.append_assoc, ← hrec.1]

/-- A state whose queue is empty while idle is well-formed. -/
theorem ProxyState.wf_of (s : ProxyState)
    (h : s.invocationInProgress = none → s.invocations = []) :
    s.wf = true := by
  cases hin : s.invocationInProgress with
  | none => simp [ProxyState.wf, hin, h hin]
  | some cur => simp [ProxyState.wf, hin]

/-- Claim C8: per proxy, at most one invocation is in flight at a time
(the in-flight slot is a single `Option`), an invocation submitted while
one is in flight is appended to the FIFO queue and not sent, and over any
run from the initial state the invocations are sent to the control URL in
exactly submission order (the final queue holding the not-yet-sent
suffix). -/
theorem c8_action_invocations_serialised_fifo
    (es : List ProxyEvent) (cur i : Nat) (q : List Nat) :
    submittedOf es
        = (ProxyState.initial.run es).2
            ++ (ProxyState.initial.run es).1.invocations ∧
    (ProxyState.initial.run es).1.wf = true ∧
    ProxyState.step { invocationInProgress := some cur, invocations := q }
        (.beginInvoke i)
      = ({ invocationInProgress := some cur, invocations := q ++ [i] }, []) := by
  have h := ProxyState.run_fifo es ProxyState.initial (fun _ => rfl)
  refine ⟨?_, ProxyState.wf_of _ h.2, rfl⟩
  have h1 := h.1
  simpa [ProxyState.initial] using h1

end HUpnp
